import Mathlib

/-
  Shallow embedding of the sigstore policy-evaluation engine
  (src/signature/policy_eval_sigstore.go) and proofs about it.

  Conventions:
  - byte slices are `List Nat`; Go `nil` vs non-nil slices are `Option Bytes`
    where that distinction matters (struct fields, loadBytesFromDataOrPath);
  - Go errors are `String`; a fallible Go function returning (T, error)
    becomes `Except Err T`, and a function returning (T, error) where both
    components are meaningful becomes a product with an `Option Err`;
  - the cryptographic and storage collaborators the engine calls into
    (os.ReadFile, PEM parsing, Rekor SET verification, Fulcio certificate
    verification, payload verification) are modelled as an explicit
    environment of oracle functions, as the spec treats them: opaque
    delegated primitives specified only at their interface boundary.
-/

namespace SigstorePolicyEval

abbrev Bytes := List Nat

abbrev Err := String

/-- crypto.PublicKey is an opaque interface value; modelled as a token. -/
abbrev PublicKey := Nat

/-- ecdsa.PublicKey (the Rekor log key type); modelled as a token. -/
abbrev ECDSAPublicKey := Nat

/-- x509.CertPool is opaque to the engine; modelled as a token. -/
abbrev CertPool := Nat

/-- The opaque *Signature data returned by the payload verifier. -/
abbrev SigData := Nat

/-- fulcioTrustRoot: CA pool plus the issuer/subject identity constraints. -/
structure fulcioTrustRoot where
  caCertificates : CertPool
  oidcIssuer : String
  subjectEmail : String
deriving DecidableEq

/-- prSigstoreSignedFulcio: the Fulcio section of the policy requirement. -/
structure prSigstoreSignedFulcio where
  CAData : Option Bytes
  CAPath : String
  OIDCIssuer : String
  SubjectEmail : String
deriving DecidableEq

/-- prSigstoreSigned: the fields of the policy requirement the evaluator reads. -/
structure prSigstoreSigned where
  KeyPath : String
  KeyPaths : List String
  KeyData : Option Bytes
  KeyDatas : List Bytes
  Fulcio : Option prSigstoreSignedFulcio
  RekorPublicKeyData : Option Bytes
  RekorPublicKeyPath : String
deriving DecidableEq

/-- sigstoreSignedTrustRoot: the parsed trust root. -/
structure sigstoreSignedTrustRoot where
  publicKeys : List PublicKey
  fulcio : Option fulcioTrustRoot
  rekorPublicKey : Option ECDSAPublicKey
deriving DecidableEq

/-- The environment of delegated collaborators the engine calls.
Modelled from the spec: the spec's external interfaces (storage reads,
PEM parsing/serialisation, transparency-log proof verification,
certificate-chain verification, payload verification) and the two pieces of
repository code outside src/ that the evaluator delegates to
(fulcioTrustRoot.validate and verifyRekorFulcio) are opaque oracle
functions; the engine only branches on success versus failure of each call
and on the values they return.
os.ReadFile never returns a nil slice on success, so readFile returns
plain bytes. -/
structure Env where
  readFile : String → Except Err Bytes
  unmarshalPEMToPublicKey : Bytes → Except Err PublicKey
  asECDSA : PublicKey → Option ECDSAPublicKey
  certPoolFromPEM : Bytes → Option CertPool
  fulcioValidate : fulcioTrustRoot → Option Err
  marshalPublicKeyToPEM : PublicKey → Except Err Bytes
  verifyRekorSET : ECDSAPublicKey → Bytes → Bytes → String → Bytes → Except Err Unit
  verifyRekorFulcio : ECDSAPublicKey → fulcioTrustRoot → Bytes → Bytes → Option Bytes → String → Bytes → Except Err PublicKey
  verifySigstorePayload : List PublicKey → Bytes → String → Except Err (Option SigData × Option PublicKey)

/-- Modelled from the spec: the well-known annotation key for the signature
bytes (an exact string constant from the repository's internal signature
package, which is not under src/; only its fixedness matters here). -/
def SigstoreSignatureAnnotationKey : String := "dev.cosignproject.cosign/signature"

/-- Modelled from the spec: the well-known annotation key for the
transparency-log inclusion proof (SET). -/
def SigstoreSETAnnotationKey : String := "dev.sigstore.cosign/bundle"

/-- Modelled from the spec: the well-known annotation key for the leaf
certificate. -/
def SigstoreCertificateAnnotationKey : String := "dev.sigstore.cosign/certificate"

/-- Modelled from the spec: the well-known annotation key for the optional
intermediate certificate chain. -/
def SigstoreIntermediateCertificateChainAnnotationKey : String := "dev.sigstore.cosign/chain"

/-- Modelled from the spec: the expected media type of an attached sigstore
signature (signature kind versus attachment subtype). -/
def SigstoreSignatureMIMEType : String := "application/vnd.dev.cosign.simplesigning.v1+json"

/-- A sigstore signature object: media type, annotation map, raw payload. -/
structure SigstoreSig where
  untrustedMIMEType : String
  untrustedAnnotationList : List (String × String)
  untrustedPayload : Bytes
deriving DecidableEq

/-- The annotation-map lookup (Go map indexing with the ok flag). -/
def SigstoreSig.lookupAnn (sig : SigstoreSig) (key : String) : Option String :=
  sig.untrustedAnnotationList.lookup key

/-- One element of the image's attached-signature list: either a signature of
a different kind entirely, or a sigstore signature object. -/
inductive ImageSig where
  | nonSigstore
  | sigstore (s : SigstoreSig)
deriving DecidableEq

/-- The image handle; only its untrusted-signature list is consumed here. -/
structure Image where
  untrustedSignatures : Except Err (List ImageSig)

/-- Modelled from the spec: the three-valued per-signature outcome
(accepted / rejected / unknown); its Go carrier strings live in repository
code outside src/. -/
inductive signatureAcceptanceResult where
  | sarAccepted
  | sarRejected
  | sarUnknown
deriving DecidableEq

/-- Modelled from the spec: the Go string carried by each outcome value,
used only in the defensive unexpected-result message. -/
def signatureAcceptanceResult.goString : signatureAcceptanceResult → String
  | .sarAccepted => "sarAccepted"
  | .sarRejected => "sarRejected"
  | .sarUnknown => "sarUnknown"

/-- signatureKeyAcceptanceResult: the outcome plus the key that verified it. -/
structure signatureKeyAcceptanceResult where
  result : signatureAcceptanceResult
  key : Option PublicKey
deriving DecidableEq

/-- The rejected result value built at the top of isSignatureAccepted. -/
def rejectedRes : signatureKeyAcceptanceResult := ⟨.sarRejected, none⟩

/-- Go []byte(s) string-to-bytes conversion. -/
def stringToBytes (s : String) : Bytes := s.toList.map Char.toNat

/-- loadBytesFromDataOrPath: at most one of data and path may be set;
returns the referenced data, or none if neither is set. -/
def loadBytesFromDataOrPath (env : Env) (pfx : String) (data : Option Bytes) (path : String) :
    Except Err (Option Bytes) :=
  if data.isSome ∧ path ≠ "" then
    .error ("Internal inconsistency: both \"" ++ pfx ++ "Path\" and \"" ++ pfx ++ "Data\" specified")
  else if path ≠ "" then
    match env.readFile path with
    | .error e => .error e
    | .ok d => .ok (some d)
  else
    match data with
    | some d => .ok (some d)
    | none => .ok none

/-- prSigstoreSignedFulcio.prepareTrustRoot: load and pool the CA
certificates and validate the descriptor. -/
def prSigstoreSignedFulcio.prepareTrustRoot (env : Env) (f : prSigstoreSignedFulcio) :
    Except Err fulcioTrustRoot :=
  match loadBytesFromDataOrPath env "fulcioCA" f.CAData f.CAPath with
  | .error e => .error e
  | .ok none => .error "Internal inconsistency: Fulcio specified with neither \"caPath\" nor \"caData\""
  | .ok (some caCertBytes) =>
    match env.certPoolFromPEM caCertBytes with
    | none => .error "error loading Fulcio CA certificates"
    | some certs =>
      let fulcio : fulcioTrustRoot := ⟨certs, f.OIDCIssuer, f.SubjectEmail⟩
      match env.fulcioValidate fulcio with
      | some e => .error e
      | none => .ok fulcio

/-- The merged public-key path list: the singular KeyPath takes the place of
the plural KeyPaths when it is set. -/
def mergedKeyPaths (pr : prSigstoreSigned) : List String :=
  if pr.KeyPath ≠ "" then [pr.KeyPath] else pr.KeyPaths

/-- The merged public-key data list: the singular KeyData takes the place of
the plural KeyDatas when it is set and non-empty. -/
def mergedKeyDatas (pr : prSigstoreSigned) : List Bytes :=
  match pr.KeyData with
  | some d => if 0 < d.length then [d] else pr.KeyDatas
  | none => pr.KeyDatas

/-- The key-loading loop over paths: read each file and parse it as a
public key; any failure is fatal. (os.ReadFile never yields nil bytes with
a nil error, so the Go nil-guard on the read bytes is always taken.) -/
def loadKeysFromPaths (env : Env) : List String → Except Err (List PublicKey)
  | [] => .ok []
  | p :: rest =>
    match env.readFile p with
    | .error e => .error e
    | .ok pem =>
      match env.unmarshalPEMToPublicKey pem with
      | .error e => .error ("parsing public key: " ++ e)
      | .ok pk =>
        match loadKeysFromPaths env rest with
        | .error e => .error e
        | .ok pks => .ok (pk :: pks)

/-- The key-parsing loop over inline data blobs; any failure is fatal. -/
def parseKeysFromDatas (env : Env) : List Bytes → Except Err (List PublicKey)
  | [] => .ok []
  | d :: rest =>
    match env.unmarshalPEMToPublicKey d with
    | .error e => .error ("parsing public key: " ++ e)
    | .ok pk =>
      match parseKeysFromDatas env rest with
      | .error e => .error e
      | .ok pks => .ok (pk :: pks)

/-- prSigstoreSigned.prepareTrustRoot: merge the key sources, load and parse
all keys, prepare the optional Fulcio descriptor, and load the optional
Rekor public key. -/
def prSigstoreSigned.prepareTrustRoot (env : Env) (pr : prSigstoreSigned) :
    Except Err sigstoreSignedTrustRoot :=
  let keyPaths := mergedKeyPaths pr
  let keyDatas := mergedKeyDatas pr
  if 0 < keyDatas.length ∧ 0 < keyPaths.length then
    .error "Too many key sources are specified"
  else
    match loadKeysFromPaths env keyPaths with
    | .error e => .error e
    | .ok pathKeys =>
      match parseKeysFromDatas env keyDatas with
      | .error e => .error e
      | .ok dataKeys =>
        let pks := pathKeys ++ dataKeys
        match (match pr.Fulcio with
               | none => Except.ok none
               | some f =>
                 match f.prepareTrustRoot env with
                 | .error e => .error e
                 | .ok fr => .ok (some fr)) with
        | .error e => .error e
        | .ok fulcioRoot =>
          match loadBytesFromDataOrPath env "rekorPublicKey" pr.RekorPublicKeyData pr.RekorPublicKeyPath with
          | .error e => .error e
          | .ok none => .ok ⟨pks, fulcioRoot, none⟩
          | .ok (some rekorPEM) =>
            match env.unmarshalPEMToPublicKey rekorPEM with
            | .error e => .error ("parsing Rekor public key: " ++ e)
            | .ok pk =>
              match env.asECDSA pk with
              | none => .error "Rekor public key is not using ECDSA"
              | some pkECDSA => .ok ⟨pks, fulcioRoot, some pkECDSA⟩

/-- isSignatureAuthorAccepted: unconditionally rejects as unimplemented. -/
def prSigstoreSigned.isSignatureAuthorAccepted (pr : prSigstoreSigned) (image : Image) (sig : Bytes) :
    signatureAcceptanceResult × Option SigData × Option Err :=
  (.sarRejected, none, some "isSignatureAuthorAccepted is not implemented for sigstore")

/-- The per-key Rekor filtering loop of the direct-public-key branch:
re-marshal each key to PEM and check the inclusion proof against it; keys
failing either step are dropped and the loop continues. -/
def rekorFilterKeys (env : Env) (rekorKey : ECDSAPublicKey) (untrustedSET : Bytes)
    (untrustedBase64Signature : String) (untrustedPayload : Bytes) :
    List PublicKey → List PublicKey
  | [] => []
  | k :: rest =>
    let tail := rekorFilterKeys env rekorKey untrustedSET untrustedBase64Signature untrustedPayload rest
    match env.marshalPublicKeyToPEM k with
    | .error _ => tail
    | .ok pem =>
      match env.verifyRekorSET rekorKey untrustedSET pem untrustedBase64Signature untrustedPayload with
      | .error _ => tail
      | .ok _ => k :: tail

/-- Whether a single configured key survives the Rekor filtering step. -/
def rekorKeyPasses (env : Env) (rekorKey : ECDSAPublicKey) (untrustedSET : Bytes)
    (untrustedBase64Signature : String) (untrustedPayload : Bytes) (k : PublicKey) : Bool :=
  match env.marshalPublicKeyToPEM k with
  | .error _ => false
  | .ok pem =>
    match env.verifyRekorSET rekorKey untrustedSET pem untrustedBase64Signature untrustedPayload with
    | .error _ => false
    | .ok _ => true

/-- The switch over the trust-root shape inside isSignatureAccepted:
produces the candidate public-key list, or the early-return error. -/
def routePublicKeys (env : Env) (trustRoot : sigstoreSignedTrustRoot) (sig : SigstoreSig)
    (untrustedBase64Signature : String) (untrustedPayload : Bytes) :
    Except Err (List PublicKey) :=
  if 0 < trustRoot.publicKeys.length ∧ trustRoot.fulcio.isSome then
    .error "Internal inconsistency: Both a public key and Fulcio CA specified"
  else if trustRoot.publicKeys.length = 0 ∧ trustRoot.fulcio.isNone then
    .error "Internal inconsistency: Neither a public key nor a Fulcio CA specified"
  else if 0 < trustRoot.publicKeys.length then
    match trustRoot.rekorPublicKey with
    | some rekorKey =>
      match sig.lookupAnn SigstoreSETAnnotationKey with
      | none => .error ("missing " ++ SigstoreSETAnnotationKey ++ " annotation")
      | some untrustedSET =>
        let keys := rekorFilterKeys env rekorKey (stringToBytes untrustedSET)
          untrustedBase64Signature untrustedPayload trustRoot.publicKeys
        if keys.length = 0 then
          .error "No public key verified against the RekorSET"
        else
          .ok keys
    | none => .ok trustRoot.publicKeys
  else
    match trustRoot.fulcio with
    | some fulcio =>
      match trustRoot.rekorPublicKey with
      | none => .error "Internal inconsistency: Fulcio CA specified without a Rekor public key"
      | some rekorKey =>
        match sig.lookupAnn SigstoreSETAnnotationKey with
        | none => .error ("missing " ++ SigstoreSETAnnotationKey ++ " annotation")
        | some untrustedSET =>
          match sig.lookupAnn SigstoreCertificateAnnotationKey with
          | none => .error ("missing " ++ SigstoreCertificateAnnotationKey ++ " annotation")
          | some untrustedCert =>
            let chain := (sig.lookupAnn SigstoreIntermediateCertificateChainAnnotationKey).map stringToBytes
            match env.verifyRekorFulcio rekorKey fulcio (stringToBytes untrustedSET)
              (stringToBytes untrustedCert) chain untrustedBase64Signature untrustedPayload with
            | .error e => .error e
            | .ok pk => .ok [pk]
    | none => .ok []

/-- prSigstoreSigned.isSignatureAccepted: prepare the trust root, extract the
mandatory signature annotation, route to the applicable verification path,
and run the payload verifier over the surviving candidate keys. -/
def prSigstoreSigned.isSignatureAccepted (env : Env) (pr : prSigstoreSigned) (sig : SigstoreSig) :
    signatureKeyAcceptanceResult × Option Err :=
  match pr.prepareTrustRoot env with
  | .error e => (rejectedRes, some e)
  | .ok trustRoot =>
    match sig.lookupAnn SigstoreSignatureAnnotationKey with
    | none => (rejectedRes, some ("missing " ++ SigstoreSignatureAnnotationKey ++ " annotation"))
    | some untrustedBase64Signature =>
      match routePublicKeys env trustRoot sig untrustedBase64Signature sig.untrustedPayload with
      | .error e => (rejectedRes, some e)
      | .ok publicKeys =>
        if publicKeys.length = 0 then
          (rejectedRes, some "Internal inconsistency: publicKey not set before verifying sigstore payload")
        else
          match env.verifySigstorePayload publicKeys sig.untrustedPayload untrustedBase64Signature with
          | .error e => (rejectedRes, some e)
          | .ok (sigData, signingKey) =>
            match sigData with
            | none => (rejectedRes, some "internal error: VerifySigstorePayload succeeded but returned no data")
            | some _ => (⟨.sarAccepted, signingKey⟩, none)

/-- The defensive message for an unexpected acceptance-result value. -/
def unexpectedResultMsg (r : signatureAcceptanceResult) : Err :=
  "Internal error: Unexpected signature verification result \"" ++ r.goString ++ "\""

/-- The outcome of the per-signature loop of isRunningImageAllowed. -/
inductive LoopOutcome where
  | accepted
  | finished (rejections : List (Option Err)) (foundNonSigstoreSignatures foundSigstoreNonAttachments : Nat)
deriving DecidableEq

/-- The per-signature loop of isRunningImageAllowed: skip and count
non-sigstore signatures and sigstore non-attachments, return on the first
acceptance, and record every rejection reason. -/
def admissionLoop (env : Env) (pr : prSigstoreSigned) :
    List ImageSig → List (Option Err) → Nat → Nat → LoopOutcome
  | [], rejections, nonSig, nonAtt => .finished rejections nonSig nonAtt
  | .nonSigstore :: rest, rejections, nonSig, nonAtt =>
    admissionLoop env pr rest rejections (nonSig + 1) nonAtt
  | .sigstore ss :: rest, rejections, nonSig, nonAtt =>
    if ss.untrustedMIMEType ≠ SigstoreSignatureMIMEType then
      admissionLoop env pr rest rejections nonSig (nonAtt + 1)
    else
      match (pr.isSignatureAccepted env ss).1.result with
      | .sarAccepted => .accepted
      | .sarRejected =>
        admissionLoop env pr rest (rejections ++ [(pr.isSignatureAccepted env ss).2]) nonSig nonAtt
      | .sarUnknown =>
        admissionLoop env pr rest
          (rejections ++ [some (unexpectedResultMsg .sarUnknown)]) nonSig nonAtt

/-- Modelled from the spec: multierr.Format (repository code outside src/)
joins the error texts with the given separator between the given first and
last fragments. -/
def multierrFormat (first middle last : String) (errs : List String) : String :=
  first ++ String.intercalate middle errs ++ last

/-- The summary built by isRunningImageAllowed when no signature was
accepted. -/
def admissionSummary (rejections : List (Option Err))
    (foundNonSigstoreSignatures foundSigstoreNonAttachments : Nat) : Option Err :=
  match rejections with
  | [] =>
    if foundNonSigstoreSignatures = 0 ∧ foundSigstoreNonAttachments = 0 then
      some "A signature was required, but no signature exists"
    else
      some ("A signature was required, but no signature exists (" ++
        toString foundNonSigstoreSignatures ++ " non-sigstore signatures, " ++
        toString foundSigstoreNonAttachments ++ " sigstore non-signature attachments)")
  | [r] => r
  | _ =>
    some (multierrFormat "None of the signatures were accepted, reasons: " "; " ""
      (rejections.map (fun o => o.getD "")))

/-- prSigstoreSigned.isRunningImageAllowed: iterate the image's attached
signatures, admit on the first accepted one, otherwise summarise. -/
def prSigstoreSigned.isRunningImageAllowed (env : Env) (pr : prSigstoreSigned) (image : Image) :
    Bool × Option Err :=
  match image.untrustedSignatures with
  | .error e => (false, some e)
  | .ok sigs =>
    match admissionLoop env pr sigs [] 0 0 with
    | .accepted => (true, none)
    | .finished rejections nonSig nonAtt => (false, admissionSummary rejections nonSig nonAtt)

/-! Concrete fixtures used by witnesses and counterexamples. -/

/-- A baseline environment: parsing succeeds with fixed tokens, storage
reads and all verification primitives fail. -/
def envBase : Env :=
  { readFile := fun _ => .error "readFile: not available"
    unmarshalPEMToPublicKey := fun _ => .ok 5
    asECDSA := fun _ => some 9
    certPoolFromPEM := fun _ => some 0
    fulcioValidate := fun _ => none
    marshalPublicKeyToPEM := fun _ => .error "marshal failed"
    verifyRekorSET := fun _ _ _ _ _ => .error "SET failed"
    verifyRekorFulcio := fun _ _ _ _ _ _ _ => .error "fulcio failed"
    verifySigstorePayload := fun _ _ _ => .error "payload failed" }

/-- An environment whose payload verifier accepts everything with key 5. -/
def envAccept : Env :=
  { envBase with verifySigstorePayload := fun _ _ _ => .ok (some 0, some 5) }

/-- An empty policy requirement. -/
def prEmpty : prSigstoreSigned :=
  { KeyPath := "", KeyPaths := [], KeyData := none, KeyDatas := []
    Fulcio := none, RekorPublicKeyData := none, RekorPublicKeyPath := "" }

/-- A requirement with both a singular key path and singular key data set. -/
def prBothSources : prSigstoreSigned :=
  { prEmpty with KeyPath := "k", KeyData := some [1] }

/-- A requirement with one inline public key and nothing else. -/
def prKeyOnly : prSigstoreSigned :=
  { prEmpty with KeyData := some [1] }

/-- A requirement with one inline public key and a Rekor public key. -/
def prKeyRekor : prSigstoreSigned :=
  { prEmpty with KeyData := some [1], RekorPublicKeyData := some [2] }

/-- A Fulcio configuration with inline CA data. -/
def fulcioCfg : prSigstoreSignedFulcio :=
  { CAData := some [3], CAPath := "", OIDCIssuer := "iss", SubjectEmail := "sub" }

/-- A requirement with both an inline public key and a Fulcio CA (the
constructor outside src/ would reject this; prepareTrustRoot does not). -/
def prKeyAndFulcio : prSigstoreSigned :=
  { prEmpty with KeyData := some [1], Fulcio := some fulcioCfg }

/-- A requirement with a Fulcio CA and a Rekor public key. -/
def prFulcioRekor : prSigstoreSigned :=
  { prEmpty with Fulcio := some fulcioCfg, RekorPublicKeyData := some [2] }

/-- A sigstore signature with the given annotation list and proper media
type. -/
def mkSig (ann : List (String × String)) : SigstoreSig :=
  { untrustedMIMEType := SigstoreSignatureMIMEType
    untrustedAnnotationList := ann
    untrustedPayload := [7] }

/-! ## Claim theorems -/

/-- C1: merging the singular key path into the path list and the singular
key data into the data list, a requirement in which both merged lists are
non-empty makes trust-root preparation fail with an error rather than
preferring one list. -/
theorem C1_dual_key_sources_rejected (env : Env) (pr : prSigstoreSigned)
    (hp : mergedKeyPaths pr ≠ []) (hd : mergedKeyDatas pr ≠ []) :
    pr.prepareTrustRoot env = .error "Too many key sources are specified" := by
  unfold prSigstoreSigned.prepareTrustRoot
  rw [if_pos]
  exact ⟨List.length_pos.mpr hd, List.length_pos.mpr hp⟩

/-- C1 witness: a concrete requirement with both sources set fails. -/
theorem C1_dual_key_sources_rejected_witness :
    prBothSources.prepareTrustRoot envBase = .error "Too many key sources are specified" :=
  C1_dual_key_sources_rejected envBase prBothSources (by decide) (by decide)

/-- C9: the author-acceptance entry point always returns the rejected
result, a nil signature value, and the not-implemented error, for all
inputs. -/
theorem C9_author_accepted_unimplemented (pr : prSigstoreSigned) (image : Image) (sig : Bytes) :
    pr.isSignatureAuthorAccepted image sig =
      (.sarRejected, none, some "isSignatureAuthorAccepted is not implemented for sigstore") := rfl

/-- C4: the key-material loader fails when both data and path are set;
returns the file contents (propagating any read error) when only the path
is set; returns the data unchanged when only the data is set; and returns
(nil, nil) when neither is set. -/
theorem C4_loadBytesFromDataOrPath_contract (env : Env) (pfx : String) :
    (∀ d path, path ≠ "" →
      loadBytesFromDataOrPath env pfx (some d) path =
        .error ("Internal inconsistency: both \"" ++ pfx ++ "Path\" and \"" ++ pfx ++ "Data\" specified")) ∧
    (∀ path, path ≠ "" →
      loadBytesFromDataOrPath env pfx none path = (env.readFile path).map some) ∧
    (∀ d, loadBytesFromDataOrPath env pfx (some d) "" = .ok (some d)) ∧
    loadBytesFromDataOrPath env pfx none "" = .ok none := by
  refine ⟨fun d path hpath => ?_, fun path hpath => ?_, fun d => rfl, rfl⟩
  · unfold loadBytesFromDataOrPath
    rw [if_pos ⟨rfl, hpath⟩]
  · unfold loadBytesFromDataOrPath
    rw [if_neg (by simp), if_pos hpath]
    cases env.readFile path <;> rfl

/-- C4 witness: the four cases at concrete inputs (a read error is
propagated in the path-only case). -/
theorem C4_loadBytesFromDataOrPath_contract_witness :
    loadBytesFromDataOrPath envBase "k" (some [1]) "p" =
      .error "Internal inconsistency: both \"kPath\" and \"kData\" specified" ∧
    loadBytesFromDataOrPath envBase "k" none "p" = .error "readFile: not available" ∧
    loadBytesFromDataOrPath envBase "k" (some [1]) "" = .ok (some [1]) ∧
    loadBytesFromDataOrPath envBase "k" none "" = .ok none := by
  obtain ⟨h1, h2, h3, h4⟩ := C4_loadBytesFromDataOrPath_contract envBase "k"
  exact ⟨h1 [1] "p" (by decide), (h2 "p" (by decide)).trans rfl, h3 [1], h4⟩

/-- Whether an error message is marked as an internal bug (the code's
internal-inconsistency errors all start with this fixed phrase). -/
def marksInternalBug (e : Err) : Bool :=
  e.toList.take 22 == "Internal inconsistency".toList

/-- C10: isSignatureAccepted always returns either the accepted result with
a nil error, carrying exactly the key the payload verifier reported, or the
rejected result with a nil key and a non-nil error; it never returns the
unknown result and never pairs acceptance with an error. -/
theorem C10_result_invariant (env : Env) (pr : prSigstoreSigned) (sig : SigstoreSig) :
    ((pr.isSignatureAccepted env sig).1.result = .sarAccepted ∧
      (pr.isSignatureAccepted env sig).2 = none ∧
      ∃ pks s64 sd,
        sig.lookupAnn SigstoreSignatureAnnotationKey = some s64 ∧
        env.verifySigstorePayload pks sig.untrustedPayload s64 =
          .ok (some sd, (pr.isSignatureAccepted env sig).1.key)) ∨
    ((pr.isSignatureAccepted env sig).1.result = .sarRejected ∧
      (pr.isSignatureAccepted env sig).1.key = none ∧
      (pr.isSignatureAccepted env sig).2 ≠ none) := by
  rcases hprep : pr.prepareTrustRoot env with e | root
  · simp only [prSigstoreSigned.isSignatureAccepted, hprep]
    right; exact ⟨rfl, rfl, by simp⟩
  · rcases hann : sig.lookupAnn SigstoreSignatureAnnotationKey with _ | s64
    · simp only [prSigstoreSigned.isSignatureAccepted, hprep, hann]
      right; exact ⟨rfl, rfl, by simp⟩
    · rcases hroute : routePublicKeys env root sig s64 sig.untrustedPayload with e | pks
      · simp only [prSigstoreSigned.isSignatureAccepted, hprep, hann, hroute]
        right; exact ⟨rfl, rfl, by simp⟩
      · by_cases hlen : pks.length = 0
        · simp only [prSigstoreSigned.isSignatureAccepted, hprep, hann, hroute, if_pos hlen]
          right; exact ⟨rfl, rfl, by simp⟩
        · rcases hv : env.verifySigstorePayload pks sig.untrustedPayload s64 with e | p
          · simp only [prSigstoreSigned.isSignatureAccepted, hprep, hann, hroute,
              if_neg hlen, hv]
            right; exact ⟨rfl, rfl, by simp⟩
          · rcases p with ⟨sd, k⟩
            rcases sd with _ | sd
            · simp only [prSigstoreSigned.isSignatureAccepted, hprep, hann, hroute,
                if_neg hlen, hv]
              right; exact ⟨rfl, rfl, by simp⟩
            · simp only [prSigstoreSigned.isSignatureAccepted, hprep, hann, hroute,
                if_neg hlen, hv]
              left
              exact ⟨trivial, trivial, pks, s64, sd, rfl, hv⟩

/-- The trust-root-shape switch under a violated exactly-one-mechanism
invariant always produces an internal-inconsistency error. -/
lemma routePublicKeys_invariant_violation (env : Env) (root : sigstoreSignedTrustRoot)
    (sig : SigstoreSig) (s64 : String) (payload : Bytes)
    (hviol : (root.publicKeys ≠ [] ∧ root.fulcio.isSome) ∨
             (root.publicKeys = [] ∧ root.fulcio = none) ∨
             (root.fulcio.isSome ∧ root.rekorPublicKey = none)) :
    ∃ e, routePublicKeys env root sig s64 payload = .error e ∧ marksInternalBug e = true := by
  unfold routePublicKeys
  by_cases hk : root.publicKeys = []
  · rcases hf : root.fulcio with _ | fr
    · refine ⟨"Internal inconsistency: Neither a public key nor a Fulcio CA specified",
        ?_, by decide⟩
      rw [if_neg (by simp [hk]), if_pos (by simp [hk, hf])]
    · have hrek : root.rekorPublicKey = none := by
        rcases hviol with ⟨h, _⟩ | ⟨_, h⟩ | ⟨_, h⟩
        · exact absurd hk h
        · rw [hf] at h; exact absurd h (by simp)
        · exact h
      refine ⟨"Internal inconsistency: Fulcio CA specified without a Rekor public key",
        ?_, by decide⟩
      rw [if_neg (by simp [hk]), if_neg (by simp [hf]), if_neg (by simp [hk]), hrek]
  · rcases hf : root.fulcio with _ | fr
    · exfalso
      rcases hviol with ⟨_, h⟩ | ⟨h, _⟩ | ⟨h, _⟩
      · rw [hf] at h; exact absurd h (by simp)
      · exact absurd h hk
      · rw [hf] at h; exact absurd h (by simp)
    · refine ⟨"Internal inconsistency: Both a public key and Fulcio CA specified",
        ?_, by decide⟩
      rw [if_pos ⟨List.length_pos.mpr hk, by simp [hf]⟩]

/-- C6 counterexample: trust-root preparation accepts a requirement with
both an inline public key and a Fulcio CA, producing a trust root that
violates the exactly-one-mechanism invariant; on a signature missing the
signature-bytes annotation the router then returns the ordinary
missing-annotation rejection, not an internal-inconsistency error. -/
theorem C6_counterexample :
    prKeyAndFulcio.prepareTrustRoot envBase =
      .ok ⟨[5], some ⟨0, "iss", "sub"⟩, none⟩ ∧
    ([5] : List PublicKey) ≠ [] ∧
    (some (⟨0, "iss", "sub"⟩ : fulcioTrustRoot)).isSome = true ∧
    prKeyAndFulcio.isSignatureAccepted envBase (mkSig []) =
      (rejectedRes, some ("missing " ++ SigstoreSignatureAnnotationKey ++ " annotation")) ∧
    marksInternalBug ("missing " ++ SigstoreSignatureAnnotationKey ++ " annotation") = false := by
  exact ⟨rfl, by decide, rfl, rfl, by decide⟩

/-- C6 (amended): for every trust root violating the exactly-one-mechanism
invariant, provided trust-root preparation succeeded and the mandatory
signature-bytes annotation is present, the router returns a rejection whose
error marks an internal bug — never an accepted outcome and never an
ordinary user-facing rejection reason. -/
theorem C6_amended_internal_inconsistency (env : Env) (pr : prSigstoreSigned)
    (sig : SigstoreSig) (root : sigstoreSignedTrustRoot) (s64 : String)
    (hprep : pr.prepareTrustRoot env = .ok root)
    (hann : sig.lookupAnn SigstoreSignatureAnnotationKey = some s64)
    (hviol : (root.publicKeys ≠ [] ∧ root.fulcio.isSome) ∨
             (root.publicKeys = [] ∧ root.fulcio = none) ∨
             (root.fulcio.isSome ∧ root.rekorPublicKey = none)) :
    ∃ e, pr.isSignatureAccepted env sig = (rejectedRes, some e) ∧ marksInternalBug e = true := by
  obtain ⟨e, hr, hb⟩ :=
    routePublicKeys_invariant_violation env root sig s64 sig.untrustedPayload hviol
  refine ⟨e, ?_, hb⟩
  simp only [prSigstoreSigned.isSignatureAccepted, hprep, hann, hr]

/-- C6 witness: on the same dual-mechanism trust root, with the
signature-bytes annotation present, the result is the internal
both-mechanisms error. -/
theorem C6_amended_internal_inconsistency_witness :
    ∃ e, prKeyAndFulcio.isSignatureAccepted envBase
        (mkSig [(SigstoreSignatureAnnotationKey, "x")]) = (rejectedRes, some e) ∧
      marksInternalBug e = true :=
  C6_amended_internal_inconsistency envBase prKeyAndFulcio
    (mkSig [(SigstoreSignatureAnnotationKey, "x")]) ⟨[5], some ⟨0, "iss", "sub"⟩, none⟩ "x"
    rfl rfl (Or.inl ⟨by decide, rfl⟩)

/-- C7: a signature of the recognized kind and media type lacking a
mandatory annotation is rejected (never not-applicable) with an error
message identifying the missing annotation by its well-known key: the
signature-bytes annotation in every branch, the inclusion-proof (SET)
annotation when a transparency-log key is configured — both in the
direct-public-key branch and in the certificate-authority branch — and the
leaf-certificate annotation in the certificate-authority branch. -/
theorem C7_missing_annotation_rejections (env : Env) (pr : prSigstoreSigned) :
    (∀ sig root, pr.prepareTrustRoot env = .ok root →
      sig.lookupAnn SigstoreSignatureAnnotationKey = none →
      pr.isSignatureAccepted env sig =
        (rejectedRes, some ("missing " ++ SigstoreSignatureAnnotationKey ++ " annotation"))) ∧
    (∀ sig root rk s64, pr.prepareTrustRoot env = .ok root →
      root.publicKeys ≠ [] → root.fulcio = none → root.rekorPublicKey = some rk →
      sig.lookupAnn SigstoreSignatureAnnotationKey = some s64 →
      sig.lookupAnn SigstoreSETAnnotationKey = none →
      pr.isSignatureAccepted env sig =
        (rejectedRes, some ("missing " ++ SigstoreSETAnnotationKey ++ " annotation"))) ∧
    (∀ sig root fr rk s64, pr.prepareTrustRoot env = .ok root →
      root.publicKeys = [] → root.fulcio = some fr → root.rekorPublicKey = some rk →
      sig.lookupAnn SigstoreSignatureAnnotationKey = some s64 →
      sig.lookupAnn SigstoreSETAnnotationKey = none →
      pr.isSignatureAccepted env sig =
        (rejectedRes, some ("missing " ++ SigstoreSETAnnotationKey ++ " annotation"))) ∧
    (∀ sig root fr rk s64 setv, pr.prepareTrustRoot env = .ok root →
      root.publicKeys = [] → root.fulcio = some fr → root.rekorPublicKey = some rk →
      sig.lookupAnn SigstoreSignatureAnnotationKey = some s64 →
      sig.lookupAnn SigstoreSETAnnotationKey = some setv →
      sig.lookupAnn SigstoreCertificateAnnotationKey = none →
      pr.isSignatureAccepted env sig =
        (rejectedRes, some ("missing " ++ SigstoreCertificateAnnotationKey ++ " annotation"))) := by
  refine ⟨?_, ?_, ?_, ?_⟩
  · intro sig root hprep hann
    simp only [prSigstoreSigned.isSignatureAccepted, hprep, hann]
  · intro sig root rk s64 hprep hpk hf hrk hann hset
    have hroute : routePublicKeys env root sig s64 sig.untrustedPayload =
        .error ("missing " ++ SigstoreSETAnnotationKey ++ " annotation") := by
      unfold routePublicKeys
      rw [if_neg (by simp [hf]), if_neg (fun h => (List.length_pos.mpr hpk).ne' h.1),
        if_pos (List.length_pos.mpr hpk), hrk, hset]
    simp only [prSigstoreSigned.isSignatureAccepted, hprep, hann, hroute]
  · intro sig root fr rk s64 hprep hpk hf hrk hann hset
    have hroute : routePublicKeys env root sig s64 sig.untrustedPayload =
        .error ("missing " ++ SigstoreSETAnnotationKey ++ " annotation") := by
      unfold routePublicKeys
      rw [if_neg (by simp [hpk]), if_neg (by simp [hf]), if_neg (by simp [hpk]), hf, hrk,
        hset]
    simp only [prSigstoreSigned.isSignatureAccepted, hprep, hann, hroute]
  · intro sig root fr rk s64 setv hprep hpk hf hrk hann hset hcert
    have hroute : routePublicKeys env root sig s64 sig.untrustedPayload =
        .error ("missing " ++ SigstoreCertificateAnnotationKey ++ " annotation") := by
      unfold routePublicKeys
      rw [if_neg (by simp [hpk]), if_neg (by simp [hf]), if_neg (by simp [hpk]), hf, hrk,
        hset, hcert]
    simp only [prSigstoreSigned.isSignatureAccepted, hprep, hann, hroute]

/-- C7 witness: the four missing-annotation rejections at concrete
configurations (direct key missing the signature bytes; direct key with
Rekor missing the SET; Fulcio CA with Rekor missing the SET; Fulcio CA
with Rekor missing the leaf certificate). -/
theorem C7_missing_annotation_rejections_witness :
    prKeyOnly.isSignatureAccepted envBase (mkSig []) =
      (rejectedRes, some ("missing " ++ SigstoreSignatureAnnotationKey ++ " annotation")) ∧
    prKeyRekor.isSignatureAccepted envBase (mkSig [(SigstoreSignatureAnnotationKey, "x")]) =
      (rejectedRes, some ("missing " ++ SigstoreSETAnnotationKey ++ " annotation")) ∧
    prFulcioRekor.isSignatureAccepted envBase (mkSig [(SigstoreSignatureAnnotationKey, "x")]) =
      (rejectedRes, some ("missing " ++ SigstoreSETAnnotationKey ++ " annotation")) ∧
    prFulcioRekor.isSignatureAccepted envBase
        (mkSig [(SigstoreSignatureAnnotationKey, "x"), (SigstoreSETAnnotationKey, "y")]) =
      (rejectedRes, some ("missing " ++ SigstoreCertificateAnnotationKey ++ " annotation")) := by
  obtain ⟨h1, h2, h3, h4⟩ := C7_missing_annotation_rejections envBase prKeyOnly
  obtain ⟨g1, g2, g3, g4⟩ := C7_missing_annotation_rejections envBase prKeyRekor
  obtain ⟨f1, f2, f3, f4⟩ := C7_missing_annotation_rejections envBase prFulcioRekor
  refine ⟨h1 (mkSig []) ⟨[5], none, none⟩ rfl rfl, ?_, ?_, ?_⟩
  · exact g2 (mkSig [(SigstoreSignatureAnnotationKey, "x")]) ⟨[5], none, some 9⟩ 9 "x"
      rfl (by decide) rfl rfl rfl rfl
  · exact f3 (mkSig [(SigstoreSignatureAnnotationKey, "x")])
      ⟨[], some ⟨0, "iss", "sub"⟩, some 9⟩ ⟨0, "iss", "sub"⟩ 9 "x"
      rfl rfl rfl rfl rfl rfl
  · exact f4 (mkSig [(SigstoreSignatureAnnotationKey, "x"), (SigstoreSETAnnotationKey, "y")])
      ⟨[], some ⟨0, "iss", "sub"⟩, some 9⟩ ⟨0, "iss", "sub"⟩ 9 "x" "y"
      rfl rfl rfl rfl rfl rfl rfl

/-- The Rekor filtering loop keeps, in order, exactly the keys passing the
re-marshal-and-verify check. -/
lemma rekorFilterKeys_eq_filter (env : Env) (rk : ECDSAPublicKey) (setB : Bytes)
    (s64 : String) (payload : Bytes) (keys : List PublicKey) :
    rekorFilterKeys env rk setB s64 payload keys =
      keys.filter (fun k => rekorKeyPasses env rk setB s64 payload k) := by
  induction keys with
  | nil => rfl
  | cons k rest ih =>
    rcases hm : env.marshalPublicKeyToPEM k with e | pem
    · simp [rekorFilterKeys, rekorKeyPasses, hm, ih]
    · rcases hv : env.verifyRekorSET rk setB pem s64 payload with e2 | u
      · simp [rekorFilterKeys, rekorKeyPasses, hm, hv, ih]
      · simp [rekorFilterKeys, rekorKeyPasses, hm, hv, ih]

/-- C3: in the direct-public-key branch with a Rekor key configured, each
configured key whose canonical re-encoding or inclusion-proof check fails
is dropped while the loop continues over the remaining keys (the surviving
keys are exactly the ordered filter of the configured keys); and when every
key is dropped the signature is rejected with the RekorSET message — for
every payload verifier, so payload verification is never reached. -/
theorem C3_rekor_filter_per_key (env : Env) :
    (∀ rk setB s64 payload keys,
      rekorFilterKeys env rk setB s64 payload keys =
        keys.filter (fun k => rekorKeyPasses env rk setB s64 payload k)) ∧
    (∀ (pr : prSigstoreSigned) (sig : SigstoreSig) (root : sigstoreSignedTrustRoot)
      (rk : ECDSAPublicKey) (s64 setv : String),
      pr.prepareTrustRoot env = .ok root →
      root.publicKeys ≠ [] → root.fulcio = none → root.rekorPublicKey = some rk →
      sig.lookupAnn SigstoreSignatureAnnotationKey = some s64 →
      sig.lookupAnn SigstoreSETAnnotationKey = some setv →
      (∀ k ∈ root.publicKeys,
        rekorKeyPasses env rk (stringToBytes setv) s64 sig.untrustedPayload k = false) →
      pr.isSignatureAccepted env sig =
        (rejectedRes, some "No public key verified against the RekorSET")) := by
  constructor
  · intro rk setB s64 payload keys
    exact rekorFilterKeys_eq_filter env rk setB s64 payload keys
  · intro pr sig root rk s64 setv hprep hpk hf hrk hann hset hall
    have hfilter : rekorFilterKeys env rk (stringToBytes setv) s64 sig.untrustedPayload
        root.publicKeys = [] := by
      rw [rekorFilterKeys_eq_filter]
      exact List.filter_eq_nil_iff.mpr (fun k hk => by simp [hall k hk])
    have hroute : routePublicKeys env root sig s64 sig.untrustedPayload =
        .error "No public key verified against the RekorSET" := by
      unfold routePublicKeys
      rw [if_neg (by simp [hf]), if_neg (fun h => (List.length_pos.mpr hpk).ne' h.1),
        if_pos (List.length_pos.mpr hpk), hrk, hset]
      simp [hfilter]
    simp only [prSigstoreSigned.isSignatureAccepted, hprep, hann, hroute]

/-- C3 witness: with one configured key whose canonical re-encoding fails,
every key is dropped and the signature is rejected with the RekorSET
message, even though the payload verifier would have accepted. -/
theorem C3_rekor_filter_per_key_witness :
    prKeyRekor.isSignatureAccepted envAccept
        (mkSig [(SigstoreSignatureAnnotationKey, "x"), (SigstoreSETAnnotationKey, "y")]) =
      (rejectedRes, some "No public key verified against the RekorSET") :=
  (C3_rekor_filter_per_key envAccept).2 prKeyRekor
    (mkSig [(SigstoreSignatureAnnotationKey, "x"), (SigstoreSETAnnotationKey, "y")])
    ⟨[5], none, some 9⟩ 9 "x" "y" rfl (by decide) rfl rfl rfl rfl (by decide)

/-- A list element the admission loop does not accept: a non-sigstore
signature, a sigstore non-attachment, or a signature whose verification
outcome is not accepted. -/
def notAccepted (env : Env) (pr : prSigstoreSigned) : ImageSig → Prop
  | .nonSigstore => True
  | .sigstore ss => ss.untrustedMIMEType ≠ SigstoreSignatureMIMEType ∨
      (pr.isSignatureAccepted env ss).1.result ≠ .sarAccepted

/-- The admission loop returns the accepted outcome as soon as it reaches an
accepted signature, whatever the accumulator state and the remaining tail. -/
lemma admissionLoop_first_accept (env : Env) (pr : prSigstoreSigned) (s : SigstoreSig)
    (post : List ImageSig)
    (hmime : s.untrustedMIMEType = SigstoreSignatureMIMEType)
    (hacc : (pr.isSignatureAccepted env s).1.result = .sarAccepted) :
    ∀ (pre : List ImageSig), (∀ x ∈ pre, notAccepted env pr x) →
      ∀ rej a b, admissionLoop env pr (pre ++ .sigstore s :: post) rej a b = .accepted := by
  intro pre
  induction pre with
  | nil =>
    intro _ rej a b
    simp only [List.nil_append, admissionLoop]
    rw [if_neg (by simp [hmime]), hacc]
  | cons x pre ih =>
    intro hpre rej a b
    have hx := hpre x (List.mem_cons_self x pre)
    have hrest : ∀ y ∈ pre, notAccepted env pr y := fun y hy => hpre y (List.mem_cons_of_mem _ hy)
    cases x with
    | nonSigstore =>
      simp only [List.cons_append, admissionLoop]
      exact ih hrest _ _ _
    | sigstore ss =>
      simp only [List.cons_append, admissionLoop]
      by_cases hm : ss.untrustedMIMEType ≠ SigstoreSignatureMIMEType
      · rw [if_pos hm]
        exact ih hrest _ _ _
      · rw [if_neg hm]
        have hr : (pr.isSignatureAccepted env ss).1.result ≠ .sarAccepted := by
          rcases hx with h | h
          · exact absurd h hm
          · exact h
        cases hres : (pr.isSignatureAccepted env ss).1.result with
        | sarAccepted => exact absurd hres hr
        | sarRejected => exact ih hrest _ _ _
        | sarUnknown => exact ih hrest _ _ _

/-- C5: signatures are evaluated in retrieval order; the first signature
whose outcome is accepted makes the aggregator return (true, nil)
immediately, for every remaining tail — so no later signature can influence
the result. -/
theorem C5_first_acceptance_wins (env : Env) (pr : prSigstoreSigned)
    (pre : List ImageSig) (s : SigstoreSig) (post : List ImageSig)
    (hpre : ∀ x ∈ pre, notAccepted env pr x)
    (hmime : s.untrustedMIMEType = SigstoreSignatureMIMEType)
    (hacc : (pr.isSignatureAccepted env s).1.result = .sarAccepted) :
    pr.isRunningImageAllowed env ⟨.ok (pre ++ .sigstore s :: post)⟩ = (true, none) := by
  unfold prSigstoreSigned.isRunningImageAllowed
  dsimp only
  rw [admissionLoop_first_accept env pr s post hmime hacc pre hpre [] 0 0]

/-- C5 witness: a skipped non-sigstore signature, then an accepted
signature, then a trailing signature that is never evaluated. -/
theorem C5_first_acceptance_wins_witness :
    prKeyOnly.isRunningImageAllowed envAccept
      ⟨.ok ([.nonSigstore] ++ .sigstore (mkSig [(SigstoreSignatureAnnotationKey, "x")]) ::
        [.sigstore (mkSig [])])⟩ = (true, none) :=
  C5_first_acceptance_wins envAccept prKeyOnly [.nonSigstore]
    (mkSig [(SigstoreSignatureAnnotationKey, "x")]) [.sigstore (mkSig [])]
    (by intro x hx
        rcases List.mem_singleton.mp hx with h
        subst h
        trivial)
    rfl rfl

/-- C2 counterexample: a requirement whose trust-root preparation fails with
a configuration error does not abort the evaluation: both attached
signatures are still evaluated, the error is recorded as a per-signature
rejection for each, and the aggregator returns the combined two-reason
summary rather than the configuration error itself. -/
theorem C2_counterexample :
    prBothSources.prepareTrustRoot envBase = .error "Too many key sources are specified" ∧
    prBothSources.isRunningImageAllowed envBase
        ⟨.ok [.sigstore (mkSig []), .sigstore (mkSig [])]⟩ =
      (false, some (multierrFormat "None of the signatures were accepted, reasons: " "; " ""
        ["Too many key sources are specified", "Too many key sources are specified"])) :=
  ⟨rfl, rfl⟩

/-- C2 (amended): when trust-root preparation fails with an error, every
per-signature evaluation returns the rejected result carrying that error,
and the admission loop records it as a per-signature rejection and
continues with the remaining signatures instead of aborting. -/
theorem C2_amended_config_error_recorded_per_signature (env : Env) (pr : prSigstoreSigned)
    (e : Err) (hprep : pr.prepareTrustRoot env = .error e) :
    (∀ sig, pr.isSignatureAccepted env sig = (rejectedRes, some e)) ∧
    (∀ (ss : SigstoreSig) rest rej a b, ss.untrustedMIMEType = SigstoreSignatureMIMEType →
      admissionLoop env pr (.sigstore ss :: rest) rej a b =
        admissionLoop env pr rest (rej ++ [some e]) a b) := by
  have h1 : ∀ sig : SigstoreSig, pr.isSignatureAccepted env sig = (rejectedRes, some e) := by
    intro sig
    simp only [prSigstoreSigned.isSignatureAccepted, hprep]
  refine ⟨h1, ?_⟩
  intro ss rest rej a b hmime
  simp only [admissionLoop]
  rw [if_neg (by simp [hmime]), h1 ss]
  rfl

/-- C2 witness: with both key sources set, the per-signature result carries
the configuration error and the loop continues past it. -/
theorem C2_amended_config_error_recorded_per_signature_witness :
    prBothSources.isSignatureAccepted envBase (mkSig []) =
      (rejectedRes, some "Too many key sources are specified") ∧
    admissionLoop envBase prBothSources [.sigstore (mkSig []), .sigstore (mkSig [])] [] 0 0 =
      admissionLoop envBase prBothSources [.sigstore (mkSig [])]
        [some "Too many key sources are specified"] 0 0 := by
  have h := C2_amended_config_error_recorded_per_signature envBase prBothSources
    "Too many key sources are specified" rfl
  exact ⟨h.1 (mkSig []), by
    have h2 := h.2 (mkSig []) [.sigstore (mkSig [])] [] 0 0 rfl
    simpa using h2⟩

/-- C8: when no signature is accepted, the aggregator returns (false, e)
where e is determined by the recorded rejections and counters: zero
rejections and zero counters give the plain no-signature message; zero
rejections with a nonzero counter give the no-signature message annotated
with both counts; exactly one rejection is returned verbatim; two or more
rejections give the combined summary-headed joined message. -/
theorem C8_summary_shape (env : Env) (pr : prSigstoreSigned) (image : Image)
    (sigs : List ImageSig) (rej : List (Option Err)) (a b : Nat)
    (himg : image.untrustedSignatures = .ok sigs)
    (hloop : admissionLoop env pr sigs [] 0 0 = .finished rej a b) :
    (rej = [] → a = 0 → b = 0 →
      pr.isRunningImageAllowed env image =
        (false, some "A signature was required, but no signature exists")) ∧
    (rej = [] → ¬(a = 0 ∧ b = 0) →
      pr.isRunningImageAllowed env image =
        (false, some ("A signature was required, but no signature exists (" ++ toString a ++
          " non-sigstore signatures, " ++ toString b ++ " sigstore non-signature attachments)"))) ∧
    (∀ r, rej = [r] → pr.isRunningImageAllowed env image = (false, r)) ∧
    (2 ≤ rej.length →
      pr.isRunningImageAllowed env image =
        (false, some (multierrFormat "None of the signatures were accepted, reasons: " "; " ""
          (rej.map (fun o => o.getD ""))))) := by
  have hmain : pr.isRunningImageAllowed env image = (false, admissionSummary rej a b) := by
    unfold prSigstoreSigned.isRunningImageAllowed
    rw [himg]
    dsimp only
    rw [hloop]
  refine ⟨?_, ?_, ?_, ?_⟩
  · intro h1 h2 h3
    subst h1; subst h2; subst h3
    rw [hmain]
    rfl
  · intro h1 h2
    subst h1
    rw [hmain]
    unfold admissionSummary
    rw [if_neg h2]
  · intro r h1
    subst h1
    rw [hmain]
    rfl
  · intro hlen
    rcases rej with _ | ⟨r1, rest⟩
    · simp at hlen
    · rcases rest with _ | ⟨r2, rest⟩
      · simp at hlen
      · rw [hmain]
        rfl

/-- C8 witness: two recorded rejections produce the combined joined
message; the (false, error) pair is returned. -/
theorem C8_summary_shape_witness :
    prBothSources.isRunningImageAllowed envBase
        ⟨.ok [.sigstore (mkSig []), .sigstore (mkSig [])]⟩ =
      (false, some (multierrFormat "None of the signatures were accepted, reasons: " "; " ""
        (([some "Too many key sources are specified",
           some "Too many key sources are specified"] : List (Option Err)).map
          (fun o => o.getD "")))) :=
  (C8_summary_shape envBase prBothSources
    ⟨.ok [.sigstore (mkSig []), .sigstore (mkSig [])]⟩
    [.sigstore (mkSig []), .sigstore (mkSig [])]
    [some "Too many key sources are specified", some "Too many key sources are specified"]
    0 0 rfl rfl).2.2.2 (by decide)

end SigstorePolicyEval
